import Mathlib

/-!
Shallow embedding of the TRANSG freight-forwarding backend, covering the
financial ledger (`src/backend/server/routes/finance.ts`), the shipment
lifecycle store (`src/backend/server/routes/shipments.ts`), the
authentication and session layer (`src/e-trans-backend/server/routes/auth.ts`
and `src/backend/server/middleware/auth.ts`) and the customs duty calculator
(`src/e-trans-backend/server/routes/ai.ts`, `POST /calculate-customs`).

Database rows are lists of records, timestamps are integer milliseconds,
monetary amounts are integers (ledger) or rationals (duty calculator), and
each HTTP handler becomes a pure function from a store and request data to a
result and an updated store.
-/

namespace TransG

/-! ## Roles and role checks (src/backend/server/middleware/auth.ts) -/

inductive Role
  | DIRECTOR
  | ACCOUNTANT
  | AGENT
  | CLIENT
deriving DecidableEq, Repr

/-- `requireRole(...roles)` from the middleware: the caller's role must be a
member of the given role list. -/
def requireRole (roles : List Role) (r : Role) : Bool :=
  roles.contains r

/-- `requireAccountant = requireRole('DIRECTOR', 'ACCOUNTANT')`. -/
def requireAccountant (r : Role) : Bool :=
  requireRole [Role.DIRECTOR, Role.ACCOUNTANT] r

/-- `requireAgent = requireRole('DIRECTOR', 'ACCOUNTANT', 'AGENT')`. -/
def requireAgent (r : Role) : Bool :=
  requireRole [Role.DIRECTOR, Role.ACCOUNTANT, Role.AGENT] r

/-- The identity context the `auth` middleware attaches to a request:
`req.user = { id, email, name, role, companyId }`. -/
structure Caller where
  id : Nat
  email : String
  name : String
  role : Role
  companyId : Nat
deriving DecidableEq, Repr

/-! ## Shipment and ledger data model (prisma schema as used by the routes) -/

inductive ShipmentStatus
  | DRAFT | PENDING | ARRIVED | DDI_OBTAINED
  | DECLARATION_FILED | LIQUIDATION_ISSUED | CUSTOMS_PAID
  | BAE_ISSUED | TERMINAL_PAID | DO_RELEASED
  | EXIT_NOTE_ISSUED | IN_DELIVERY | DELIVERED
  | INVOICED | CLOSED | ARCHIVED
deriving DecidableEq, Repr

/-- The string form of a status, as interpolated into timeline messages. -/
def statusName : ShipmentStatus → String
  | .DRAFT => "DRAFT"
  | .PENDING => "PENDING"
  | .ARRIVED => "ARRIVED"
  | .DDI_OBTAINED => "DDI_OBTAINED"
  | .DECLARATION_FILED => "DECLARATION_FILED"
  | .LIQUIDATION_ISSUED => "LIQUIDATION_ISSUED"
  | .CUSTOMS_PAID => "CUSTOMS_PAID"
  | .BAE_ISSUED => "BAE_ISSUED"
  | .TERMINAL_PAID => "TERMINAL_PAID"
  | .DO_RELEASED => "DO_RELEASED"
  | .EXIT_NOTE_ISSUED => "EXIT_NOTE_ISSUED"
  | .IN_DELIVERY => "IN_DELIVERY"
  | .DELIVERED => "DELIVERED"
  | .INVOICED => "INVOICED"
  | .CLOSED => "CLOSED"
  | .ARCHIVED => "ARCHIVED"

inductive ExpenseType
  | PROVISION
  | DISBURSEMENT
deriving DecidableEq, Repr

/-- An `Expense` row. Amounts are integer GNF units; `paidAt` is a
millisecond timestamp. -/
structure Expense where
  id : Nat
  shipmentId : Nat
  type : ExpenseType
  category : String
  description : String
  amount : Int
  quantity : Option Int := none
  unitPrice : Option Int := none
  reference : Option String := none
  supplier : Option String := none
  paid : Bool := false
  paidAt : Option Int := none
deriving DecidableEq, Repr

/-- A `Shipment` row (the fields the modelled routes read or write). -/
structure Shipment where
  id : Nat
  companyId : Nat
  createdById : Nat
  trackingNumber : String
  clientName : String
  description : String
  status : ShipmentStatus := .DRAFT
  cifCurrency : String := "USD"
  portOfDischarge : String := "CONAKRY"
  eta : Option Int := none
  ata : Option Int := none
  deliveryDate : Option Int := none
deriving DecidableEq, Repr

/-- A `TimelineEvent` row (append-only audit log of a shipment). -/
structure TimelineEvent where
  shipmentId : Nat
  action : String
  userId : Option Nat := none
  userName : String
deriving DecidableEq, Repr

/-- The slice of the database the shipment/finance routes touch.
`nextExpenseId` models the row-id generator of the database. -/
structure Store where
  shipments : List Shipment
  expenses : List Expense
  timeline : List TimelineEvent
  nextExpenseId : Nat
deriving Repr

/-- `prisma.shipment.findFirst({ where: { id, companyId } })`. -/
def Store.findShipment (st : Store) (companyId sid : Nat) : Option Shipment :=
  st.shipments.find? (fun s => s.id == sid && s.companyId == companyId)

/-- `prisma.expense.findFirst({ where: { id, shipment: { companyId } } })`:
the expense with the given id whose shipment belongs to the company. -/
def Store.findExpense (st : Store) (companyId eid : Nat) : Option Expense :=
  st.expenses.find? (fun e => e.id == eid && (st.findShipment companyId e.shipmentId).isSome)

/-- All expenses of one shipment (`include: { shipment: { include:
{ expenses: true } } }`). -/
def Store.shipmentExpenses (st : Store) (sid : Nat) : List Expense :=
  st.expenses.filter (fun e => e.shipmentId == sid)

/-- `prisma.expense.update({ where: { id }, data })`: rewrite the row with
the given id. -/
def Store.updateExpenseRow (st : Store) (eid : Nat) (f : Expense → Expense) : Store :=
  { st with expenses := st.expenses.map (fun e => if e.id == eid then f e else e) }

/-! ## Balance computation

The loop of `POST /expenses/:id/pay` (finance.ts lines 289-300):
provisions sum every `PROVISION` amount, paid disbursements sum the amounts
of non-provision expenses with `paid` set. -/

def provisionsOf : List Expense → Int
  | [] => 0
  | e :: rest => (if e.type = ExpenseType.PROVISION then e.amount else 0) + provisionsOf rest

def paidDisbursementsOf : List Expense → Int
  | [] => 0
  | e :: rest =>
      (if e.type = ExpenseType.PROVISION then 0 else if e.paid then e.amount else 0) +
        paidDisbursementsOf rest

/-- `balance = provisions - paidDisbursements`. -/
def balanceOf (es : List Expense) : Int :=
  provisionsOf es - paidDisbursementsOf es

/-! ## Ledger operations (src/backend/server/routes/finance.ts) -/

inductive FinanceResult
  | forbidden
  | validationError
  | notFound
  | alreadyPaid
  | insufficientBalance (available : Int)
  | cannotDeletePaid
  | ok
deriving DecidableEq, Repr

/-- Request body of `POST /expenses` (`createExpenseSchema`). -/
structure CreateExpenseInput where
  shipmentId : Nat
  type : ExpenseType
  category : String
  description : String
  amount : Int
  quantity : Option Int := none
  unitPrice : Option Int := none
  reference : Option String := none
  supplier : Option String := none
deriving DecidableEq, Repr

/-- `POST /expenses`: requires accountant-or-above, validates
`amount > 0` and a non-empty description (zod), requires the shipment to
belong to the caller's company, then inserts an unpaid expense row. -/
def createExpense (st : Store) (caller : Caller) (input : CreateExpenseInput) :
    FinanceResult × Store :=
  if ¬ requireAccountant caller.role then (.forbidden, st)
  else if ¬ (0 < input.amount ∧ 1 ≤ input.description.length) then (.validationError, st)
  else
    match st.findShipment caller.companyId input.shipmentId with
    | none => (.notFound, st)
    | some _shipment =>
        (.ok,
          { st with
            expenses := st.expenses ++
              [{ id := st.nextExpenseId
                 shipmentId := input.shipmentId
                 type := input.type
                 category := input.category
                 description := input.description
                 amount := input.amount
                 quantity := input.quantity
                 unitPrice := input.unitPrice
                 reference := input.reference
                 supplier := input.supplier
                 paid := false
                 paidAt := none }]
            nextExpenseId := st.nextExpenseId + 1 })

/-- A `PATCH /expenses/:id` body: every field optional; `none` means the
field is absent from the patch. -/
structure ExpensePatch where
  type : Option ExpenseType := none
  category : Option String := none
  description : Option String := none
  amount : Option Int := none
  quantity : Option (Option Int) := none
  unitPrice : Option (Option Int) := none
  reference : Option (Option String) := none
  supplier : Option (Option String) := none
  paid : Option Bool := none
  paidAt : Option (Option Int) := none
deriving DecidableEq, Repr

/-- Applying a patch to a row: present fields overwrite, absent fields keep
the stored value (prisma `update` semantics for `updateData`). -/
def Expense.applyPatch (e : Expense) (p : ExpensePatch) : Expense :=
  { e with
    type := p.type.getD e.type
    category := p.category.getD e.category
    description := p.description.getD e.description
    amount := p.amount.getD e.amount
    quantity := p.quantity.getD e.quantity
    unitPrice := p.unitPrice.getD e.unitPrice
    reference := p.reference.getD e.reference
    supplier := p.supplier.getD e.supplier
    paid := p.paid.getD e.paid
    paidAt := p.paidAt.getD e.paidAt }

/-- `PATCH /expenses/:id`: scope-checked lookup, then
`updateData = { ...req.body }` with `updateData.paidAt = new Date()` exactly
when the body sets `paid: true` and the stored row was unpaid. -/
def updateExpense (st : Store) (caller : Caller) (eid : Nat) (p : ExpensePatch) (now : Int) :
    FinanceResult × Store :=
  if ¬ requireAccountant caller.role then (.forbidden, st)
  else
    match st.findExpense caller.companyId eid with
    | none => (.notFound, st)
    | some expense =>
        let updateData :=
          if p.paid = some true ∧ expense.paid = false then { p with paidAt := some (some now) }
          else p
        (.ok, st.updateExpenseRow expense.id (fun e => e.applyPatch updateData))

/-- Marking a row paid (`data: { paid: true, paidAt: new Date() }`). -/
def Expense.setPaid (e : Expense) (now : Int) : Expense :=
  { e with paid := true, paidAt := some now }

/-- `POST /expenses/:id/pay`: scope-checked lookup, already-paid guard, and
for disbursements the balance guard recomputed from the whole shipment's
expenses; on success, sets `paid`/`paidAt`. -/
def payExpense (st : Store) (caller : Caller) (eid : Nat) (now : Int) :
    FinanceResult × Store :=
  if ¬ requireAccountant caller.role then (.forbidden, st)
  else
    match st.findExpense caller.companyId eid with
    | none => (.notFound, st)
    | some expense =>
        if expense.paid then (.alreadyPaid, st)
        else if expense.type = ExpenseType.DISBURSEMENT then
          let balance := balanceOf (st.shipmentExpenses expense.shipmentId)
          if balance < expense.amount then (.insufficientBalance balance, st)
          else (.ok, st.updateExpenseRow expense.id (fun e => e.setPaid now))
        else (.ok, st.updateExpenseRow expense.id (fun e => e.setPaid now))

/-- `DELETE /expenses/:id`: scope-checked lookup, paid guard, then row
removal. -/
def deleteExpense (st : Store) (caller : Caller) (eid : Nat) :
    FinanceResult × Store :=
  if ¬ requireAccountant caller.role then (.forbidden, st)
  else
    match st.findExpense caller.companyId eid with
    | none => (.notFound, st)
    | some expense =>
        if expense.paid then (.cannotDeletePaid, st)
        else (.ok, { st with expenses := st.expenses.filter (fun e => !(e.id == expense.id)) })

/-! ## Shipment update (src/backend/server/routes/shipments.ts, PATCH /:id) -/

/-- A `PATCH /api/shipments/:id` body (the fields the modelled claims
touch); `none` means the field is absent. `eta`/`ata`/`deliveryDate` are
only written when present (`req.body.eta ? new Date(req.body.eta) :
undefined`). -/
structure ShipmentPatch where
  clientName : Option String := none
  description : Option String := none
  status : Option ShipmentStatus := none
  eta : Option Int := none
  ata : Option Int := none
  deliveryDate : Option Int := none
deriving DecidableEq, Repr

def Shipment.applyPatch (s : Shipment) (p : ShipmentPatch) : Shipment :=
  { s with
    clientName := p.clientName.getD s.clientName
    description := p.description.getD s.description
    status := p.status.getD s.status
    eta := match p.eta with | some v => some v | none => s.eta
    ata := match p.ata with | some v => some v | none => s.ata
    deliveryDate := match p.deliveryDate with | some v => some v | none => s.deliveryDate }

/-- `PATCH /:id`: requires agent-or-above, company-scoped lookup, field
update, then — only when the body carries a status different from the
stored one — appends one timeline event recording the new status and the
acting user. -/
def updateShipment (st : Store) (caller : Caller) (sid : Nat) (p : ShipmentPatch) :
    FinanceResult × Store :=
  if ¬ requireAgent caller.role then (.forbidden, st)
  else
    match st.findShipment caller.companyId sid with
    | none => (.notFound, st)
    | some shipment =>
        let shipments1 :=
          st.shipments.map (fun s => if s.id == sid then s.applyPatch p else s)
        let st1 := { st with shipments := shipments1 }
        match p.status with
        | some newStatus =>
            if newStatus ≠ shipment.status then
              let ev : TimelineEvent :=
                ⟨shipment.id, "Statut changé: " ++ statusName newStatus,
                  some caller.id, caller.name⟩
              (.ok, { st1 with timeline := st1.timeline ++ [ev] })
            else (.ok, st1)
        | none => (.ok, st1)

/-! ## Ledger operation sequences (claim C1) -/

inductive LedgerOp
  | create (input : CreateExpenseInput)
  | update (eid : Nat) (patch : ExpensePatch)
  | pay (eid : Nat)
  | delete (eid : Nat)
deriving Repr

def applyOp (caller : Caller) (now : Int) (st : Store) : LedgerOp → Store
  | .create input => (createExpense st caller input).2
  | .update eid p => (updateExpense st caller eid p now).2
  | .pay eid => (payExpense st caller eid now).2
  | .delete eid => (deleteExpense st caller eid).2

def runOps (caller : Caller) (now : Int) (st : Store) : List LedgerOp → Store
  | [] => st
  | op :: rest => runOps caller now (applyOp caller now st op) rest

/-- Operations that only create or pay expenses. -/
def LedgerOp.isCreateOrPay : LedgerOp → Bool
  | .create _ => true
  | .pay _ => true
  | _ => false

/-- Every shipment's balance is non-negative. -/
def Store.balancesNonneg (st : Store) : Prop :=
  ∀ sid : Nat, 0 ≤ balanceOf (st.shipmentExpenses sid)

/-- Database well-formedness: expense ids are pairwise distinct and below
the id generator. -/
def Store.wf (st : Store) : Prop :=
  (st.expenses.map Expense.id).Nodup ∧ ∀ e ∈ st.expenses, e.id < st.nextExpenseId

/-! ## Concrete ledger fixtures used by witnesses and counterexamples -/

def ship1 : Shipment :=
  { id := 1, companyId := 1, createdById := 1, trackingNumber := "TR-1",
    clientName := "SOGECO", description := "OIGNONS" }

/-- An accountant of company 1. -/
def acct : Caller :=
  { id := 1, email := "compta@emergence.gn", name := "Compta",
    role := .ACCOUNTANT, companyId := 1 }

/-- Empty ledger holding one shipment of company 1. -/
def st0 : Store :=
  { shipments := [ship1], expenses := [], timeline := [], nextExpenseId := 1 }

/-- Create a provision of 100 and a disbursement of 80, pay the
disbursement, then delete the (unpaid) provision. -/
def cexOps : List LedgerOp :=
  [ .create { shipmentId := 1, type := .PROVISION, category := "AUTRE",
              description := "Avance client", amount := 100 },
    .create { shipmentId := 1, type := .DISBURSEMENT, category := "DD",
              description := "Droit de Douane", amount := 80 },
    .pay 2,
    .delete 1 ]

/-- The same scenario without the delete: create and pay only. -/
def wOps : List LedgerOp :=
  [ .create { shipmentId := 1, type := .PROVISION, category := "AUTRE",
              description := "Avance client", amount := 100 },
    .create { shipmentId := 1, type := .DISBURSEMENT, category := "DD",
              description := "Droit de Douane", amount := 80 },
    .pay 2 ]

def expProv : Expense :=
  { id := 1, shipmentId := 1, type := .PROVISION, category := "AUTRE",
    description := "Avance client", amount := 100 }

def expDisb : Expense :=
  { id := 2, shipmentId := 1, type := .DISBURSEMENT, category := "DD",
    description := "Droit de Douane", amount := 80 }

/-- Ledger with a provision of 100 and an unpaid disbursement of 80. -/
def stPay : Store :=
  { shipments := [ship1], expenses := [expProv, expDisb], timeline := [],
    nextExpenseId := 3 }

/-- Ledger holding one already-paid disbursement. -/
def stPaid : Store :=
  { shipments := [ship1],
    expenses := [{ expDisb with paid := true, paidAt := some 3 }],
    timeline := [], nextExpenseId := 3 }

/-- A patch carrying only a client-chosen `paidAt`. -/
def patchClientPaidAt : ExpensePatch := { paidAt := some (some 42) }

/-- A patch setting `paid: true` together with a client-chosen `paidAt`. -/
def patchPaidTrue : ExpensePatch := { paid := some true, paidAt := some (some 999) }

/-- A patch moving the shipment status to ARRIVED. -/
def patchStatus : ShipmentPatch := { status := some .ARRIVED }

/-! ## Customs duty calculator
(src/e-trans-backend/server/routes/ai.ts, POST /calculate-customs) -/

/-- Round-half-up to the nearest whole unit: the behaviour of JS
`Math.round` (half rounds toward +∞). -/
def roundHalfUp (x : ℚ) : ℤ := ⌊x + 1 / 2⌋

/-- The static exchange-rate table `{ USD: 8646, EUR: 9400, GNF: 1 }`. -/
def rates (currency : String) : Option ℚ :=
  if currency = "USD" then some 8646
  else if currency = "EUR" then some 9400
  else if currency = "GNF" then some 1
  else none

/-- `rates[currency] || rates.USD`: unknown currencies fall back to USD. -/
def exchangeRate (currency : String) : ℚ := (rates currency).getD 8646

/-- The response of the calculator (the numeric fields of `data`). -/
structure CustomsCalc where
  cifValueGnf : ℚ
  dd : ℤ
  rtl : ℤ
  pc : ℤ
  ca : ℤ
  tvaBase : ℚ
  tva : ℤ
  bfu : ℤ
  totalDuties : ℤ
deriving DecidableEq, Repr

/-- The duty computation of `POST /calculate-customs`: converts to GNF with
the static rate, then DD 35%, RTL 2%, PC 0.5%, CA 0.25%, TVA 18% of
(converted value + DD), BFU a three-tier step function, each line rounded
with `Math.round`, and the total being the sum of the six lines. -/
def calculateCustoms (value : ℚ) (currency : String) : CustomsCalc :=
  let rate := exchangeRate currency
  let valueGnf := value * rate
  let dd := roundHalfUp (valueGnf * 0.35)
  let rtl := roundHalfUp (valueGnf * 0.02)
  let pc := roundHalfUp (valueGnf * 0.005)
  let ca := roundHalfUp (valueGnf * 0.0025)
  let tvaBase := valueGnf + (dd : ℚ)
  let tva := roundHalfUp (tvaBase * 0.18)
  let bfu : ℤ := if valueGnf > 100000000 then 500000
    else if valueGnf > 50000000 then 350000 else 200000
  { cifValueGnf := valueGnf, dd := dd, rtl := rtl, pc := pc, ca := ca,
    tvaBase := tvaBase, tva := tva, bfu := bfu,
    totalDuties := dd + rtl + pc + ca + tva + bfu }

/-! ## Authentication and sessions
(src/e-trans-backend/server/routes/auth.ts and
src/backend/server/middleware/auth.ts) -/

/-- Bcrypt modelled as an injective tagging of the plaintext. -/
def bcryptHash (plain : String) : String := "bcrypt$" ++ plain

/-- `bcrypt.compare(plain, hash)`. -/
def bcryptCompare (plain hash : String) : Bool := hash == bcryptHash plain

/-- A `User` row of the auth schema. -/
structure AuthUser where
  id : Nat
  email : String
  password : String
  name : String
  phone : Option String := none
  role : Role
  companyId : Nat
  emailVerified : Bool := false
  isActive : Bool := false
  verificationCode : Option String := none
  codeExpiresAt : Option Int := none
  failedAttempts : Nat := 0
  lockedUntil : Option Int := none
  lastLogin : Option Int := none
deriving DecidableEq, Repr

/-- Payload of an access token: `{ userId, role, companyId }`. -/
structure AccessPayload where
  userId : Nat
  role : Role
  companyId : Nat
deriving DecidableEq, Repr

/-- Payload of a refresh token: `{ userId, type: 'refresh' }` (the type tag
is the constant `"refresh"` in the source and is omitted here). -/
structure RefreshPayload where
  userId : Nat
deriving DecidableEq, Repr

/-- A signed JWT: `secret` stands for the signature (valid exactly when it
equals the verifying secret) and `exp` for the expiry instant. -/
structure Jwt (P : Type) where
  payload : P
  exp : Int
  secret : String
deriving DecidableEq, Repr

inductive VerifyError
  | expired
  | invalid
deriving DecidableEq, Repr

/-- `jwt.verify`: checks the signature, then the expiry (a
`TokenExpiredError` is only raised for a well-signed token). -/
def jwtVerify {P : Type} (t : Jwt P) (secret : String) (now : Int) :
    Except VerifyError P :=
  if t.secret == secret then
    if now < t.exp then .ok t.payload else .error .expired
  else .error .invalid

/-- `jwt.sign(payload, secret, { expiresIn })`, with `exp` the absolute
expiry instant. -/
def jwtSign {P : Type} (payload : P) (secret : String) (exp : Int) : Jwt P :=
  ⟨payload, exp, secret⟩

structure Env where
  JWT_SECRET : String
  REFRESH_TOKEN_SECRET : String
deriving Repr

/-- A persisted `RefreshToken` row. -/
structure RefreshTokenRow where
  token : Jwt RefreshPayload
  userId : Nat
  expiresAt : Int
  revokedAt : Option Int := none
deriving DecidableEq, Repr

structure AuthDb where
  users : List AuthUser
  refreshTokens : List RefreshTokenRow
deriving DecidableEq, Repr

/-- `email.toLowerCase()` (character-wise lowering, written out so that it
evaluates by kernel reduction). -/
def toLowerStr (s : String) : String := ⟨s.data.map Char.toLower⟩

/-- `prisma.user.findUnique({ where: { email: email.toLowerCase() } })`. -/
def AuthDb.findUserByEmail (db : AuthDb) (email : String) : Option AuthUser :=
  db.users.find? (fun u => u.email == toLowerStr email)

/-- `prisma.user.findUnique({ where: { id } })` (also used with `findFirst`
semantics by the middleware). -/
def AuthDb.findUserById (db : AuthDb) (uid : Nat) : Option AuthUser :=
  db.users.find? (fun u => u.id == uid)

/-- `prisma.user.update({ where: { id }, data })`. -/
def AuthDb.updateUser (db : AuthDb) (uid : Nat) (f : AuthUser → AuthUser) : AuthDb :=
  { db with users := db.users.map (fun u => if u.id == uid then f u else u) }

/-- `generateTokens`: a 15-minute access token signed with `JWT_SECRET` and
a 7-day refresh token signed with `REFRESH_TOKEN_SECRET`. -/
def generateTokens (env : Env) (userId : Nat) (role : Role) (companyId : Nat)
    (now : Int) : Jwt AccessPayload × Jwt RefreshPayload :=
  (jwtSign ⟨userId, role, companyId⟩ env.JWT_SECRET (now + 15 * 60 * 1000),
   jwtSign ⟨userId⟩ env.REFRESH_TOKEN_SECRET (now + 7 * 24 * 60 * 60 * 1000))

/-- `Math.ceil((lockedUntil - now) / 60000)` for an active lock. -/
def minutesLeft (lockedUntil now : Int) : Int :=
  (lockedUntil - now + 59999) / 60000

inductive LoginResult
  | invalidCredentials
  | locked (minutesLeft : Int)
  | needsVerification (code : String)
  | accountDisabled
  | tooManyAttempts
  | success (accessToken : Jwt AccessPayload) (refreshToken : Jwt RefreshPayload)
deriving DecidableEq, Repr

/-- The part of `POST /login` after the lockout gate: email-verification
gate (which re-issues a code without checking the password), active gate,
password check with failure counting and lockout at 5 failures, and the
success transaction (refresh-token insert plus counter reset). -/
def loginUnlocked (env : Env) (db : AuthDb) (user : AuthUser) (password : String)
    (now : Int) (freshCode : String) : LoginResult × AuthDb :=
  if user.emailVerified = false then
    (.needsVerification freshCode,
     db.updateUser user.id (fun u =>
       { u with verificationCode := some freshCode,
                codeExpiresAt := some (now + 15 * 60 * 1000) }))
  else if user.isActive = false then
    (.accountDisabled, db)
  else if bcryptCompare password user.password = false then
    let newFailedAttempts := user.failedAttempts + 1
    let db1 := db.updateUser user.id (fun u =>
      { u with failedAttempts := newFailedAttempts,
               lockedUntil := if 5 ≤ newFailedAttempts
                 then some (now + 15 * 60 * 1000) else none })
    (if 5 ≤ newFailedAttempts then .tooManyAttempts else .invalidCredentials, db1)
  else
    let tokens := generateTokens env user.id user.role user.companyId now
    let db1 := { db with refreshTokens := db.refreshTokens ++
      [(⟨tokens.2, user.id, now + 7 * 24 * 60 * 60 * 1000, none⟩ : RefreshTokenRow)] }
    let db2 := db1.updateUser user.id (fun u =>
      { u with failedAttempts := 0, lockedUntil := none, lastLogin := some now })
    (.success tokens.1 tokens.2, db2)

/-- `POST /login`: user lookup by lower-cased email, lockout gate, then the
remaining checks. `freshCode` stands for the verification code generated on
the needs-verification path. -/
def login (env : Env) (db : AuthDb) (email password : String) (now : Int)
    (freshCode : String) : LoginResult × AuthDb :=
  match db.findUserByEmail email with
  | none => (.invalidCredentials, db)
  | some user =>
      match user.lockedUntil with
      | some t =>
          if now < t then (.locked (minutesLeft t now), db)
          else loginUnlocked env db user password now freshCode
      | none => loginUnlocked env db user password now freshCode

/-- The database state after a successful login of `u` at `now`: the
refresh-token insert and the user update of the login transaction. -/
def loginSuccessState (env : Env) (db : AuthDb) (u : AuthUser) (now : Int) : AuthDb :=
  AuthDb.updateUser
    { db with refreshTokens :=
        db.refreshTokens ++ [⟨(generateTokens env u.id u.role u.companyId now).2, u.id,
          now + 7 * 24 * 60 * 60 * 1000, none⟩] }
    u.id
    (fun x => { x with failedAttempts := 0, lockedUntil := none, lastLogin := some now })

inductive RefreshResult
  | missingToken
  | invalidToken
  | ok (accessToken : Jwt AccessPayload)
deriving DecidableEq, Repr

/-- `POST /refresh`: verifies the refresh token's signature and expiry,
requires a stored, unrevoked, unexpired row for it, then issues a new
15-minute access token only; the refresh token is not rotated and the
stored rows are unchanged. The user lookup models the `include: { user }`
relation of the stored row. -/
def refresh (env : Env) (db : AuthDb) (tok : Option (Jwt RefreshPayload)) (now : Int) :
    RefreshResult × AuthDb :=
  match tok with
  | none => (.missingToken, db)
  | some t =>
      match jwtVerify t env.REFRESH_TOKEN_SECRET now with
      | .error _ => (.invalidToken, db)
      | .ok decoded =>
          match db.refreshTokens.find? (fun r =>
            r.token == t && r.userId == decoded.userId && r.revokedAt.isNone &&
              decide (now < r.expiresAt)) with
          | none => (.invalidToken, db)
          | some stored =>
              match db.findUserById stored.userId with
              | none => (.invalidToken, db)
              | some user =>
                  (.ok (jwtSign ⟨user.id, user.role, user.companyId⟩ env.JWT_SECRET
                    (now + 15 * 60 * 1000)), db)

/-- `POST /logout`: stamps `revokedAt` on every unrevoked refresh token of
the user (bulk revocation). -/
def logout (db : AuthDb) (userId : Nat) (now : Int) : AuthDb :=
  { db with refreshTokens := db.refreshTokens.map (fun r =>
      if r.userId == userId && r.revokedAt.isNone then { r with revokedAt := some now }
      else r) }

inductive GuardResult
  | noToken
  | tokenExpired
  | tokenInvalid
  | userNotFound
  | accountDisabled
  | emailNotVerified
  | ok (identity : Caller)
deriving DecidableEq, Repr

/-- The `auth` middleware (Authorization Guard): verifies the access token,
re-fetches the user and checks the current active/verified state, then
attaches the identity context. -/
def authGuard (env : Env) (db : AuthDb) (tok : Option (Jwt AccessPayload))
    (now : Int) : GuardResult :=
  match tok with
  | none => .noToken
  | some t =>
      match jwtVerify t env.JWT_SECRET now with
      | .error .expired => .tokenExpired
      | .error .invalid => .tokenInvalid
      | .ok decoded =>
          match db.findUserById decoded.userId with
          | none => .userNotFound
          | some user =>
              if user.isActive = false then .accountDisabled
              else if user.emailVerified = false then .emailNotVerified
              else .ok ⟨user.id, user.email, user.name, user.role, user.companyId⟩

/-- The constant anti-enumeration response of `POST /resend-code`. -/
def resendMessage : String := "Si ce compte existe, un code a été envoyé"

/-- `POST /resend-code`: re-issues a code (with a 15-minute expiry) only
for an existing, unverified account, and always answers with the same
success message. -/
def resendCode (db : AuthDb) (email : String) (now : Int) (freshCode : String) :
    String × AuthDb :=
  match db.findUserByEmail email with
  | some user =>
      if user.emailVerified = false then
        (resendMessage,
         db.updateUser user.id (fun u =>
           { u with verificationCode := some freshCode,
                    codeExpiresAt := some (now + 15 * 60 * 1000) }))
      else (resendMessage, db)
  | none => (resendMessage, db)

/-! ## Concrete auth fixtures -/

def env0 : Env :=
  { JWT_SECRET := "access-secret", REFRESH_TOKEN_SECRET := "refresh-secret" }

/-- A verified, active director. -/
def alice : AuthUser :=
  { id := 1, email := "alice@emergence.gn", password := bcryptHash "Admin123!",
    name := "Alice", role := .DIRECTOR, companyId := 1,
    emailVerified := true, isActive := true }

/-- An unverified account. -/
def bob : AuthUser :=
  { id := 2, email := "bob@emergence.gn", password := bcryptHash "Secret99!",
    name := "Bob", role := .AGENT, companyId := 1,
    emailVerified := false, isActive := false, verificationCode := some "111111" }

def db0 : AuthDb := { users := [alice, bob], refreshTokens := [] }

/-- Alice one failure away from the lockout threshold. -/
def alice4 : AuthUser := { alice with failedAttempts := 4 }

def db4 : AuthDb := { users := [alice4], refreshTokens := [] }

/-- Alice locked until t = 900000 (15 minutes past t = 0). -/
def aliceLocked : AuthUser :=
  { alice with failedAttempts := 5, lockedUntil := some 900000 }

def dbLocked : AuthDb := { users := [aliceLocked], refreshTokens := [] }

/-- The database after Alice's successful login at t = 0. -/
def db0' : AuthDb := loginSuccessState env0 db0 alice 0

/-- The refresh token issued by that login. -/
def rt0 : Jwt RefreshPayload :=
  (generateTokens env0 alice.id alice.role alice.companyId 0).2

/-- The access token issued by a refresh call at t = 1000. -/
def at0 : Jwt AccessPayload :=
  jwtSign ⟨alice.id, alice.role, alice.companyId⟩ env0.JWT_SECRET (1000 + 15 * 60 * 1000)

end TransG

namespace TransG

/-! ## Arithmetic of the balance over list operations -/

theorem provisionsOf_append (l1 l2 : List Expense) :
    provisionsOf (l1 ++ l2) = provisionsOf l1 + provisionsOf l2 := by
  induction l1 with
  | nil => simp [provisionsOf]
  | cons a t ih => simp [provisionsOf, ih]; ring

theorem paidDisbursementsOf_append (l1 l2 : List Expense) :
    paidDisbursementsOf (l1 ++ l2) = paidDisbursementsOf l1 + paidDisbursementsOf l2 := by
  induction l1 with
  | nil => simp [paidDisbursementsOf]
  | cons a t ih => simp [paidDisbursementsOf, ih]; ring

theorem balanceOf_append (l1 l2 : List Expense) :
    balanceOf (l1 ++ l2) = balanceOf l1 + balanceOf l2 := by
  simp [balanceOf, provisionsOf_append, paidDisbursementsOf_append]; ring

/-- An id-indexed conditional map is the identity on a list that holds no
row with that id. -/
theorem map_updateIf_id (l : List Expense) (eid : Nat) (f : Expense → Expense)
    (h : ∀ e ∈ l, e.id ≠ eid) :
    l.map (fun e => if e.id == eid then f e else e) = l := by
  induction l with
  | nil => rfl
  | cons a t ih =>
      have ha : (a.id == eid) = false := beq_eq_false_iff_ne.mpr (h a (by simp))
      simp only [List.map_cons, ha, Bool.false_eq_true, if_false]
      rw [ih (fun e he => h e (by simp [he]))]

theorem provisionsOf_map_setPaid (l : List Expense) (eid : Nat) (now : Int) :
    provisionsOf (l.map (fun e => if e.id == eid then e.setPaid now else e)) =
      provisionsOf l := by
  induction l with
  | nil => rfl
  | cons a t ih =>
      simp only [List.map_cons, provisionsOf, ih]
      by_cases h : a.id == eid <;> simp [h, Expense.setPaid]

theorem paidDisbursementsOf_map_setPaid (l : List Expense) (now : Int)
    (target : Expense) (huniq : (l.map Expense.id).Nodup)
    (ht : target ∈ l) (hunpaid : target.paid = false) :
    paidDisbursementsOf (l.map (fun e => if e.id == target.id then e.setPaid now else e)) =
      paidDisbursementsOf l +
        (if target.type = ExpenseType.PROVISION then 0 else target.amount) := by
  induction l with
  | nil => simp at ht
  | cons a t ih =>
      simp only [List.map_cons, List.nodup_cons] at huniq
      rcases List.mem_cons.mp ht with rfl | hmem
      · have htail : ∀ e ∈ t, e.id ≠ target.id := by
          intro e he heq
          exact huniq.1 (heq ▸ List.mem_map_of_mem Expense.id he)
        simp only [List.map_cons, beq_self_eq_true, if_pos rfl,
          map_updateIf_id t target.id _ htail, paidDisbursementsOf]
        by_cases hp : target.type = ExpenseType.PROVISION
        · simp [hp, Expense.setPaid]
        · simp [hp, Expense.setPaid, hunpaid]; ring
      · have hne : (a.id == target.id) = false := by
          refine beq_eq_false_iff_ne.mpr ?_
          intro heq
          exact huniq.1 (heq ▸ List.mem_map_of_mem Expense.id hmem)
        simp only [List.map_cons, hne, Bool.false_eq_true, if_false, paidDisbursementsOf,
          ih huniq.2 hmem]
        ring

theorem balanceOf_map_setPaid (l : List Expense) (now : Int)
    (target : Expense) (huniq : (l.map Expense.id).Nodup)
    (ht : target ∈ l) (hunpaid : target.paid = false) :
    balanceOf (l.map (fun e => if e.id == target.id then e.setPaid now else e)) =
      balanceOf l - (if target.type = ExpenseType.PROVISION then 0 else target.amount) := by
  simp only [balanceOf, provisionsOf_map_setPaid,
    paidDisbursementsOf_map_setPaid l now target huniq ht hunpaid]
  ring

/-! ## Structural facts about row updates and lookups -/

theorem filter_map_updateIf (l : List Expense) (eid : Nat) (f : Expense → Expense)
    (hf : ∀ e, (f e).shipmentId = e.shipmentId) (sid : Nat) :
    (l.map (fun e => if e.id == eid then f e else e)).filter
        (fun e => e.shipmentId == sid) =
      (l.filter (fun e => e.shipmentId == sid)).map
        (fun e => if e.id == eid then f e else e) := by
  induction l with
  | nil => rfl
  | cons a t ih =>
      have hsh : (if a.id == eid then f a else a).shipmentId = a.shipmentId := by
        by_cases h : (a.id == eid) = true <;> simp [h, hf]
      by_cases hs : (a.shipmentId == sid) = true
      · simp only [List.map_cons, List.filter_cons, hsh, hs, if_true, List.map_cons, ih]
      · simp only [List.map_cons, List.filter_cons, hsh, hs, Bool.false_eq_true, if_false, ih]

theorem map_id_updateIf (l : List Expense) (eid : Nat) (f : Expense → Expense)
    (hf : ∀ e, (f e).id = e.id) :
    (l.map (fun e => if e.id == eid then f e else e)).map Expense.id =
      l.map Expense.id := by
  induction l with
  | nil => rfl
  | cons a t ih =>
      have ha : (if a.id == eid then f a else a).id = a.id := by
        by_cases h : (a.id == eid) = true <;> simp [h, hf]
      simp only [List.map_cons]
      rw [ha, ih]

theorem findExpense_spec (st : Store) (cid eid : Nat) (e : Expense)
    (h : st.findExpense cid eid = some e) :
    e ∈ st.expenses ∧ e.id = eid := by
  refine ⟨List.mem_of_find?_eq_some h, ?_⟩
  have hp := List.find?_some h
  simp only [Bool.and_eq_true, beq_iff_eq] at hp
  exact hp.1

theorem nodup_filter_ids (l : List Expense) (p : Expense → Bool)
    (h : (l.map Expense.id).Nodup) : ((l.filter p).map Expense.id).Nodup :=
  List.Nodup.sublist (List.Sublist.map Expense.id (List.filter_sublist l)) h

/-! ## Preservation of well-formedness and the balance invariant -/

theorem updateRow_setPaid_wf (st : Store) (eid : Nat) (now : Int) (hwf : st.wf) :
    (st.updateExpenseRow eid (fun e => e.setPaid now)).wf := by
  obtain ⟨h1, h2⟩ := hwf
  constructor
  · show ((st.expenses.map fun e =>
        if e.id == eid then e.setPaid now else e).map Expense.id).Nodup
    rw [map_id_updateIf st.expenses eid (fun e => e.setPaid now) (fun e => rfl)]
    exact h1
  · intro e he
    simp only [Store.updateExpenseRow, List.mem_map] at he
    obtain ⟨a, ha, rfl⟩ := he
    by_cases h : (a.id == eid) = true <;>
      simpa [h, Expense.setPaid] using h2 a ha

theorem markPaid_balancesNonneg (st : Store) (now : Int) (target : Expense)
    (hwf : st.wf) (hb : st.balancesNonneg)
    (hmem : target ∈ st.expenses) (hunpaid : target.paid = false)
    (hok : target.type = ExpenseType.PROVISION ∨
           target.amount ≤ balanceOf (st.shipmentExpenses target.shipmentId)) :
    (st.updateExpenseRow target.id (fun e => e.setPaid now)).balancesNonneg := by
  intro sid
  have hship : (st.updateExpenseRow target.id (fun e => e.setPaid now)).shipmentExpenses sid =
      (st.shipmentExpenses sid).map
        (fun e => if e.id == target.id then e.setPaid now else e) :=
    filter_map_updateIf st.expenses target.id (fun e => e.setPaid now)
      (fun e => rfl) sid
  rw [hship]
  by_cases hsid : target.shipmentId = sid
  · have hmemf : target ∈ st.shipmentExpenses sid :=
      List.mem_filter.mpr ⟨hmem, by simp [hsid]⟩
    rw [balanceOf_map_setPaid (st.shipmentExpenses sid) now target
      (nodup_filter_ids st.expenses (fun e => e.shipmentId == sid) hwf.1) hmemf hunpaid]
    rcases hok with hprov | hbal
    · simp only [hprov, if_true]
      have := hb sid
      omega
    · have h1 := hb sid
      have h2 : target.amount ≤ balanceOf (st.shipmentExpenses sid) := hsid ▸ hbal
      by_cases hp : target.type = ExpenseType.PROVISION
      · rw [if_pos hp]; omega
      · rw [if_neg hp]; omega
  · have hnone : ∀ e ∈ st.shipmentExpenses sid, e.id ≠ target.id := by
      intro e he heq
      have hemem : e ∈ st.expenses := (List.mem_filter.mp he).1
      have : e = target :=
        List.inj_on_of_nodup_map hwf.1 hemem hmem heq
      have hesid : (e.shipmentId == sid) = true := (List.mem_filter.mp he).2
      rw [this] at hesid
      exact hsid (by simpa using hesid)
    rw [map_updateIf_id _ _ _ hnone]
    exact hb sid

theorem createExpense_preserves (st : Store) (caller : Caller) (input : CreateExpenseInput)
    (hwf : st.wf) (hb : st.balancesNonneg) :
    ((createExpense st caller input).2).wf ∧
      ((createExpense st caller input).2).balancesNonneg := by
  unfold createExpense
  split
  · exact ⟨hwf, hb⟩
  split
  · exact ⟨hwf, hb⟩
  rename_i hrole hvalid
  have hamount : 0 < input.amount := by
    rcases not_not.mp hvalid with ⟨h, _⟩
    exact h
  split
  · exact ⟨hwf, hb⟩
  obtain ⟨h1, h2⟩ := hwf
  refine ⟨⟨?_, ?_⟩, ?_⟩
  · rw [List.map_append]
    refine List.Nodup.append h1 (List.nodup_singleton _) ?_
    intro x hx hy
    obtain ⟨e, he, rfl⟩ := List.mem_map.mp hx
    simp only [List.map_cons, List.map_nil, List.mem_singleton] at hy
    exact absurd (hy ▸ h2 e he) (lt_irrefl _)
  · intro e he
    rcases List.mem_append.mp he with hold | hnew
    · exact Nat.lt_trans (h2 e hold) (Nat.lt_succ_self _)
    · simp only [List.mem_singleton] at hnew
      subst hnew
      exact Nat.lt_succ_self _
  · intro sid
    show 0 ≤ balanceOf ((st.expenses ++ [_]).filter fun e => e.shipmentId == sid)
    rw [List.filter_append, balanceOf_append]
    have hb1 := hb sid
    have hb2 : 0 ≤ balanceOf (List.filter (fun e => e.shipmentId == sid)
        [{ id := st.nextExpenseId, shipmentId := input.shipmentId, type := input.type,
           category := input.category, description := input.description,
           amount := input.amount, quantity := input.quantity,
           unitPrice := input.unitPrice, reference := input.reference,
           supplier := input.supplier, paid := false, paidAt := none : Expense }]) := by
      by_cases hs : (input.shipmentId == sid) = true
      · by_cases ht : input.type = ExpenseType.PROVISION
        · simp only [hs, ht, List.filter, balanceOf, provisionsOf, paidDisbursementsOf,
            if_true]
          omega
        · simp [hs, ht, balanceOf, provisionsOf, paidDisbursementsOf]
      · simp [List.filter, hs, balanceOf, provisionsOf, paidDisbursementsOf]
    exact add_nonneg hb1 hb2

theorem payExpense_preserves (st : Store) (caller : Caller) (eid : Nat) (now : Int)
    (hwf : st.wf) (hb : st.balancesNonneg) :
    ((payExpense st caller eid now).2).wf ∧
      ((payExpense st caller eid now).2).balancesNonneg := by
  unfold payExpense
  split
  · exact ⟨hwf, hb⟩
  split
  · exact ⟨hwf, hb⟩
  rename_i hrole expense hfind
  obtain ⟨hmem, hid⟩ := findExpense_spec st caller.companyId eid expense hfind
  split
  · exact ⟨hwf, hb⟩
  rename_i hpaid
  have hunpaid : expense.paid = false := by
    cases h : expense.paid
    · rfl
    · exact absurd h hpaid
  split
  · rename_i hdisb
    dsimp only
    split
    · exact ⟨hwf, hb⟩
    · rename_i hbal
      refine ⟨updateRow_setPaid_wf st expense.id now hwf, ?_⟩
      exact markPaid_balancesNonneg st now expense hwf hb hmem hunpaid
        (Or.inr (not_lt.mp hbal))
  · refine ⟨updateRow_setPaid_wf st expense.id now hwf, ?_⟩
    rename_i hdisb
    have hprov : expense.type = ExpenseType.PROVISION := by
      cases h : expense.type
      · rfl
      · exact absurd h hdisb
    exact markPaid_balancesNonneg st now expense hwf hb hmem hunpaid (Or.inl hprov)

theorem applyOp_preserves (caller : Caller) (now : Int) (st : Store) (op : LedgerOp)
    (hop : op.isCreateOrPay = true) (hwf : st.wf) (hb : st.balancesNonneg) :
    (applyOp caller now st op).wf ∧ (applyOp caller now st op).balancesNonneg := by
  cases op with
  | create input => exact createExpense_preserves st caller input hwf hb
  | pay eid => exact payExpense_preserves st caller eid now hwf hb
  | update eid p => simp [LedgerOp.isCreateOrPay] at hop
  | delete eid => simp [LedgerOp.isCreateOrPay] at hop

theorem runOps_preserves (caller : Caller) (now : Int) :
    ∀ (ops : List LedgerOp) (st : Store), (∀ op ∈ ops, op.isCreateOrPay = true) →
      st.wf → st.balancesNonneg →
      (runOps caller now st ops).wf ∧ (runOps caller now st ops).balancesNonneg := by
  intro ops
  induction ops with
  | nil => intro st _ hwf hb; exact ⟨hwf, hb⟩
  | cons op rest ih =>
      intro st hops hwf hb
      have h := applyOp_preserves caller now st op (hops op (by simp)) hwf hb
      exact ih _ (fun o ho => hops o (by simp [ho])) h.1 h.2

theorem find?_map_pred {α : Type} (l : List α) (g : α → α) (p : α → Bool)
    (hp : ∀ a, p (g a) = p a) :
    (l.map g).find? p = (l.find? p).map g := by
  induction l with
  | nil => rfl
  | cons a t ih =>
      simp only [List.map_cons, List.find?]
      rw [hp a]
      cases h : p a
      · simpa [h] using ih
      · simp [h]

theorem findExpense_updateRow (st : Store) (cid eid : Nat) (f : Expense → Expense)
    (hfid : ∀ e, (f e).id = e.id) (hfsid : ∀ e, (f e).shipmentId = e.shipmentId) :
    (st.updateExpenseRow eid f).findExpense cid eid =
      (st.findExpense cid eid).map (fun e => if e.id == eid then f e else e) := by
  show (st.expenses.map fun e => if e.id == eid then f e else e).find? _ = _
  refine find?_map_pred st.expenses _ _ ?_
  intro a
  by_cases h : (a.id == eid) = true
  · simp [h, hfid, hfsid, Store.findShipment]
  · simp [h]

/-! ## Claim C1 -/

/-- C1 counterexample: starting from an empty ledger, create a 100
provision and an 80 disbursement, pay the disbursement (balance 100 ≥ 80),
then delete the unpaid provision: the guard in `DELETE /expenses/:id` only
protects paid expenses, so the delete succeeds and the shipment's balance
becomes −80 < 0. The claim that the balance is never negative after any
createExpense/updateExpense/payExpense/deleteExpense sequence is false. -/
theorem C1_counterexample :
    balanceOf ((runOps acct 0 st0 cexOps).shipmentExpenses 1) = -80 ∧
      balanceOf ((runOps acct 0 st0 cexOps).shipmentExpenses 1) < 0 := by
  constructor <;> decide

/-- C1 (amended): for every well-formed ledger whose shipment balances are
all non-negative and every sequence of createExpense and payExpense
operations (updateExpense and deleteExpense excluded — deleting an unpaid
PROVISION or patching `paid: true` can overdraw a shipment), every
shipment's balance `Σ provisions − Σ paid disbursements` is non-negative
after every operation of the sequence. -/
theorem C1_balance_invariant (caller : Caller) (now : Int) (st : Store)
    (ops : List LedgerOp) (hwf : st.wf) (hb : st.balancesNonneg)
    (hops : ∀ op ∈ ops, op.isCreateOrPay = true) :
    ∀ pre suf : List LedgerOp, ops = pre ++ suf →
      (runOps caller now st pre).balancesNonneg := by
  intro pre suf hsplit
  have hpre : ∀ op ∈ pre, op.isCreateOrPay = true := fun op hop =>
    hops op (by simp [hsplit, hop])
  exact (runOps_preserves caller now pre st hpre hwf hb).2

/-- C1 witness: the create/create/pay prefix of the counterexample scenario
keeps the balance non-negative. -/
theorem C1_witness : (runOps acct 0 st0 wOps).balancesNonneg :=
  C1_balance_invariant acct 0 st0 wOps
    (by constructor <;> simp [st0])
    (fun sid => by
      simp [st0, Store.shipmentExpenses, balanceOf, provisionsOf, paidDisbursementsOf])
    (by decide) wOps [] (by simp)

/-! ## Claim C2 -/

/-- C2: for an accountant-or-above caller and an unpaid expense of the
caller's company, `POST /expenses/:id/pay` fails with InsufficientBalance
(reporting the available balance, recomputed over all of the shipment's
expenses) and leaves the store unchanged when the expense is a DISBURSEMENT
whose amount exceeds the balance; otherwise (sufficient balance, or a
PROVISION, which bypasses the check) it succeeds and the stored row gets
`paid = true` and `paidAt = now`. -/
theorem C2_payExpense (st : Store) (caller : Caller) (eid : Nat) (now : Int) (e : Expense)
    (hrole : requireAccountant caller.role = true)
    (hfind : st.findExpense caller.companyId eid = some e)
    (hunpaid : e.paid = false) :
    (e.type = ExpenseType.DISBURSEMENT →
        balanceOf (st.shipmentExpenses e.shipmentId) < e.amount →
        payExpense st caller eid now =
          (.insufficientBalance (balanceOf (st.shipmentExpenses e.shipmentId)), st))
    ∧ ((e.type = ExpenseType.PROVISION ∨
          e.amount ≤ balanceOf (st.shipmentExpenses e.shipmentId)) →
        payExpense st caller eid now =
            (.ok, st.updateExpenseRow e.id (fun x => x.setPaid now)) ∧
          (st.updateExpenseRow e.id (fun x => x.setPaid now)).findExpense
              caller.companyId eid = some { e with paid := true, paidAt := some now }) := by
  have hid : e.id = eid := (findExpense_spec st caller.companyId eid e hfind).2
  constructor
  · intro hty hlt
    unfold payExpense
    simp [hrole, hfind, hunpaid, hty, hlt]
  · intro hok
    have hfind' : (st.updateExpenseRow e.id (fun x => x.setPaid now)).findExpense
        caller.companyId eid = some { e with paid := true, paidAt := some now } := by
      rw [hid, findExpense_updateRow st caller.companyId eid
        (fun x => x.setPaid now) (fun x => rfl) (fun x => rfl), hfind]
      simp [hid, Expense.setPaid]
    refine ⟨?_, hfind'⟩
    unfold payExpense
    rcases hok with hprov | hle
    · have hnd : ¬ e.type = ExpenseType.DISBURSEMENT := by simp [hprov]
      simp [hrole, hfind, hunpaid, hnd]
    · by_cases hty : e.type = ExpenseType.DISBURSEMENT
      · simp [hrole, hfind, hunpaid, hty, not_lt.mpr hle]
      · simp [hrole, hfind, hunpaid, hty]

/-- C2 witness: paying the 80 disbursement against a balance of 100
succeeds and stamps `paid`/`paidAt`. -/
theorem C2_witness :
    payExpense stPay acct 2 5 = (.ok, stPay.updateExpenseRow 2 (fun x => x.setPaid 5)) ∧
      (stPay.updateExpenseRow 2 (fun x => x.setPaid 5)).findExpense 1 2 =
        some { expDisb with paid := true, paidAt := some 5 } :=
  (C2_payExpense stPay acct 2 5 expDisb (by decide) (by decide) (by decide)).2
    (Or.inr (by decide))

/-! ## Claim C3 -/

/-- C3: on a paid expense of the caller's company, `POST /expenses/:id/pay`
fails with the already-paid error and `DELETE /expenses/:id` fails with the
cannot-delete-paid error, and both leave the entire store unchanged. -/
theorem C3_paid_immutable (st : Store) (caller : Caller) (eid : Nat) (now : Int) (e : Expense)
    (hrole : requireAccountant caller.role = true)
    (hfind : st.findExpense caller.companyId eid = some e)
    (hpaid : e.paid = true) :
    payExpense st caller eid now = (.alreadyPaid, st) ∧
      deleteExpense st caller eid = (.cannotDeletePaid, st) := by
  unfold payExpense deleteExpense
  simp [hrole, hfind, hpaid]

/-- C3 witness: paying or deleting the already-paid disbursement of
`stPaid` is rejected with the store unchanged. -/
theorem C3_witness :
    payExpense stPaid acct 2 7 = (.alreadyPaid, stPaid) ∧
      deleteExpense stPaid acct 2 = (.cannotDeletePaid, stPaid) :=
  C3_paid_immutable stPaid acct 2 7 { expDisb with paid := true, paidAt := some 3 }
    (by decide) (by decide) (by decide)

/-! ## Claim C4 -/

/-- C4 counterexample: at CIF 18240 USD the calculator's static rate is
8646, so the converted value is 157,703,040 GNF and the computed lines are
DD = 55,196,064 and TVA = 38,321,839 — not the 55,197,883 / 38,890,851 of
the claim (those fixture figures stem from exchange rate 8646.285 and do
not match the calculator). -/
theorem C4_counterexample :
    (calculateCustoms 18240 "USD").cifValueGnf = 157703040 ∧
      (calculateCustoms 18240 "USD").dd = 55196064 ∧
      (calculateCustoms 18240 "USD").tva = 38321839 ∧
      (calculateCustoms 18240 "USD").dd ≠ 55197883 ∧
      (calculateCustoms 18240 "USD").tva ≠ 38890851 := by
  refine ⟨?_, ?_, ?_, ?_, ?_⟩ <;>
    norm_num [calculateCustoms, roundHalfUp, exchangeRate, rates]

/-- C4 (amended): for every positive CIF value and currency in
{USD, EUR, GNF} (GNF at rate 1), the calculator computes
convertedValue = value × rate, DD = round(0.35·v), RTL = round(0.02·v),
PC = round(0.005·v), CA = round(0.0025·v), TVA = round(0.18·(v + DD)) — on
value plus DD — BFU as the three-tier step function of v, every rounding
being round-half-up to the whole unit, and the total the sum of the six
lines; in particular CIF 18240 USD at rate 8646 yields DD = 55,196,064 and
TVA = 38,321,839 (not the fixture's 55,197,883 / 38,890,851). -/
theorem C4_duty_calculator (value : ℚ) (currency : String)
    (_hpos : 0 < value)
    (_hcur : currency = "USD" ∨ currency = "EUR" ∨ currency = "GNF") :
    (calculateCustoms value currency).cifValueGnf = value * exchangeRate currency ∧
    exchangeRate "GNF" = 1 ∧
    (calculateCustoms value currency).dd =
      roundHalfUp (0.35 * (calculateCustoms value currency).cifValueGnf) ∧
    (calculateCustoms value currency).rtl =
      roundHalfUp (0.02 * (calculateCustoms value currency).cifValueGnf) ∧
    (calculateCustoms value currency).pc =
      roundHalfUp (0.005 * (calculateCustoms value currency).cifValueGnf) ∧
    (calculateCustoms value currency).ca =
      roundHalfUp (0.0025 * (calculateCustoms value currency).cifValueGnf) ∧
    (calculateCustoms value currency).tvaBase =
      (calculateCustoms value currency).cifValueGnf +
        ((calculateCustoms value currency).dd : ℚ) ∧
    (calculateCustoms value currency).tva =
      roundHalfUp (0.18 * ((calculateCustoms value currency).cifValueGnf +
        ((calculateCustoms value currency).dd : ℚ))) ∧
    (calculateCustoms value currency).bfu =
      (if 100000000 < (calculateCustoms value currency).cifValueGnf then 500000
       else if 50000000 < (calculateCustoms value currency).cifValueGnf then 350000
       else 200000) ∧
    (calculateCustoms value currency).totalDuties =
      (calculateCustoms value currency).dd + (calculateCustoms value currency).rtl +
        (calculateCustoms value currency).pc + (calculateCustoms value currency).ca +
        (calculateCustoms value currency).tva + (calculateCustoms value currency).bfu ∧
    (calculateCustoms 18240 "USD").dd = 55196064 ∧
    (calculateCustoms 18240 "USD").tva = 38321839 := by
  refine ⟨rfl, by rfl, ?_, ?_, ?_, ?_, rfl, ?_, rfl, rfl,
    by norm_num [calculateCustoms, roundHalfUp, exchangeRate, rates],
    by norm_num [calculateCustoms, roundHalfUp, exchangeRate, rates]⟩ <;>
    · simp only [calculateCustoms]
      exact congrArg roundHalfUp (by ring)

/-- C4 witness: the DD line at CIF 18240 USD is the round-half-up of 35% of
the converted value. -/
theorem C4_witness :
    (calculateCustoms 18240 "USD").dd =
      roundHalfUp (0.35 * (calculateCustoms 18240 "USD").cifValueGnf) :=
  (C4_duty_calculator 18240 "USD" (by norm_num) (Or.inl rfl)).2.2.1

/-! ## Claim C8 -/

/-- C8 counterexample: a patch that contains only `paidAt: 42` (without
`paid: true`) is applied verbatim by `PATCH /expenses/:id`, so the stored
`paidAt` does come from the client; the claim that the stored paidAt never
comes from the client is false. -/
theorem C8_counterexample :
    (updateExpense stPay acct 2 patchClientPaidAt 1000).1 = .ok ∧
      ((updateExpense stPay acct 2 patchClientPaidAt 1000).2.findExpense 1 2).map
          Expense.paidAt = some (some 42) := by
  constructor <;> decide

/-- C8 (amended): for an accountant-or-above caller and an expense of the
caller's company, `PATCH /expenses/:id` applies the patch fields as given,
except that when the patch sets `paid: true` and the stored expense was
unpaid, the server overwrites the patch's `paidAt` (client-supplied or
absent) with the current server time; in every other case — including a
patch that carries a `paidAt` without `paid: true` on an unpaid record —
the patch, `paidAt` included, is applied verbatim. -/
theorem C8_update_paidAt (st : Store) (caller : Caller) (eid : Nat) (p : ExpensePatch)
    (now : Int) (e : Expense)
    (hrole : requireAccountant caller.role = true)
    (hfind : st.findExpense caller.companyId eid = some e) :
    (p.paid = some true ∧ e.paid = false →
        updateExpense st caller eid p now =
            (.ok, st.updateExpenseRow e.id
              (fun x => x.applyPatch { p with paidAt := some (some now) })) ∧
          (st.updateExpenseRow e.id
              (fun x => x.applyPatch { p with paidAt := some (some now) })).findExpense
              caller.companyId eid =
            some (e.applyPatch { p with paidAt := some (some now) }) ∧
          (e.applyPatch { p with paidAt := some (some now) }).paidAt = some now)
    ∧ (¬(p.paid = some true ∧ e.paid = false) →
        updateExpense st caller eid p now =
          (.ok, st.updateExpenseRow e.id (fun x => x.applyPatch p))) := by
  have hid : e.id = eid := (findExpense_spec st caller.companyId eid e hfind).2
  constructor
  · intro hcond
    refine ⟨?_, ?_, by simp [Expense.applyPatch]⟩
    · unfold updateExpense
      simp [hrole, hfind, hcond.1, hcond.2]
    · rw [hid, findExpense_updateRow st caller.companyId eid
        (fun x => x.applyPatch { p with paidAt := some (some now) })
        (fun x => rfl) (fun x => rfl), hfind]
      simp [hid]
  · intro hcond
    unfold updateExpense
    simp [hrole, hfind, hcond]

/-- C8 witness: patching `paid: true` with a client `paidAt` of 999 on the
unpaid disbursement stores `paidAt = 50`, the server time. -/
theorem C8_witness :
    updateExpense stPay acct 2 patchPaidTrue 50 =
        (.ok, stPay.updateExpenseRow 2
          (fun x => x.applyPatch { patchPaidTrue with paidAt := some (some 50) })) ∧
      (stPay.updateExpenseRow 2
          (fun x => x.applyPatch { patchPaidTrue with paidAt := some (some 50) })).findExpense
          1 2 = some (expDisb.applyPatch { patchPaidTrue with paidAt := some (some 50) }) ∧
      (expDisb.applyPatch { patchPaidTrue with paidAt := some (some 50) }).paidAt = some 50 :=
  (C8_update_paidAt stPay acct 2 patchPaidTrue 50 expDisb (by decide) (by decide)).1
    ⟨by decide, by decide⟩

/-! ## Claim C9 -/

/-- C9: for an agent-or-above caller and a shipment of the caller's
company, `PATCH /shipments/:id` appends exactly one timeline event —
recording the new status and the acting user — when the patch carries a
status different from the stored one, and appends nothing when the status
is absent or equal to the stored value. -/
theorem C9_status_timeline (st : Store) (caller : Caller) (sid : Nat) (p : ShipmentPatch)
    (s : Shipment)
    (hrole : requireAgent caller.role = true)
    (hfind : st.findShipment caller.companyId sid = some s) :
    (∀ ns, p.status = some ns → ns ≠ s.status →
        (updateShipment st caller sid p).2.timeline =
          st.timeline ++ [⟨s.id, "Statut changé: " ++ statusName ns,
            some caller.id, caller.name⟩])
    ∧ ((p.status = none ∨ p.status = some s.status) →
        (updateShipment st caller sid p).2.timeline = st.timeline) := by
  constructor
  · intro ns hns hne
    unfold updateShipment
    simp [hrole, hfind, hns, hne]
  · intro hcase
    unfold updateShipment
    rcases hcase with hnone | hsame
    · simp [hrole, hfind, hnone]
    · simp [hrole, hfind, hsame]

/-- C9 witness: moving `ship1` from DRAFT to ARRIVED appends exactly one
timeline event naming the new status and the acting user; a patch without a
status appends nothing. -/
theorem C9_witness :
    (updateShipment stPay acct 1 patchStatus).2.timeline =
        [⟨1, "Statut changé: ARRIVED", some 1, "Compta"⟩] ∧
      (updateShipment stPay acct 1 { clientName := some "X" }).2.timeline = [] :=
  ⟨(C9_status_timeline stPay acct 1 patchStatus ship1 (by decide) (by decide)).1
      ShipmentStatus.ARRIVED (by decide) (by decide),
   (C9_status_timeline stPay acct 1 { clientName := some "X" } ship1 (by decide)
      (by decide)).2 (Or.inl rfl)⟩

/-! ## Helper lemmas for the authentication layer -/

theorem login_unlocked_dispatch (env : Env) (db : AuthDb) (email : String)
    (u : AuthUser) (pw : String) (now : Int) (code : String)
    (hfind : db.findUserByEmail email = some u)
    (hlock : u.lockedUntil = none ∨ ∃ t, u.lockedUntil = some t ∧ t ≤ now) :
    login env db email pw now code = loginUnlocked env db u pw now code := by
  unfold login
  rw [hfind]
  dsimp only
  rcases hlock with h | ⟨t, ht, hle⟩
  · rw [h]
  · rw [ht]
    dsimp only
    rw [if_neg (not_lt.mpr hle)]

theorem loginUnlocked_wrongPw (env : Env) (db : AuthDb) (u : AuthUser)
    (pw : String) (now : Int) (code : String)
    (hver : u.emailVerified = true) (hact : u.isActive = true)
    (hpw : bcryptCompare pw u.password = false) :
    loginUnlocked env db u pw now code =
      (if 5 ≤ u.failedAttempts + 1 then .tooManyAttempts else .invalidCredentials,
       db.updateUser u.id (fun x =>
         { x with failedAttempts := u.failedAttempts + 1,
                  lockedUntil := if 5 ≤ u.failedAttempts + 1
                    then some (now + 15 * 60 * 1000) else none })) := by
  unfold loginUnlocked
  simp [hver, hact, hpw]

theorem loginUnlocked_success (env : Env) (db : AuthDb) (u : AuthUser)
    (pw : String) (now : Int) (code : String)
    (hver : u.emailVerified = true) (hact : u.isActive = true)
    (hpw : bcryptCompare pw u.password = true) :
    loginUnlocked env db u pw now code =
      (.success (generateTokens env u.id u.role u.companyId now).1
        (generateTokens env u.id u.role u.companyId now).2,
       loginSuccessState env db u now) := by
  unfold loginUnlocked loginSuccessState
  simp [hver, hact, hpw]

theorem find?_update_by_id (l : List AuthUser) (u : AuthUser) (f : AuthUser → AuthUser)
    (hids : (l.map AuthUser.id).Nodup) (hmem : u ∈ l) (hf : ∀ x, (f x).id = x.id) :
    (l.map fun x => if x.id == u.id then f x else x).find? (fun x => x.id == u.id) =
      some (f u) := by
  induction l with
  | nil => simp at hmem
  | cons a t ih =>
      simp only [List.map_cons, List.nodup_cons] at hids
      by_cases h : a.id = u.id
      · have hau : a = u := by
          rcases List.mem_cons.mp hmem with h' | hmem'
          · exact h'.symm
          · exact absurd (h ▸ List.mem_map_of_mem AuthUser.id hmem') hids.1
        subst hau
        have h1 : ((a.id == a.id) = true) := beq_self_eq_true a.id
        have h2 : (((f a).id == a.id) = true) := beq_iff_eq.mpr (hf a)
        simp only [List.map_cons, if_pos h1, List.find?, h2]
      · have hne : (a.id == u.id) = false := beq_eq_false_iff_ne.mpr h
        simp only [List.map_cons, hne, Bool.false_eq_true, if_false, List.find?, hne]
        have hmem' : u ∈ t := by
          rcases List.mem_cons.mp hmem with h' | hmem'
          · exact absurd (congrArg AuthUser.id h'.symm) h
          · exact hmem'
        exact ih hids.2 hmem'

theorem findUserById_updateUser (db : AuthDb) (u : AuthUser) (f : AuthUser → AuthUser)
    (hids : (db.users.map AuthUser.id).Nodup) (hmem : u ∈ db.users)
    (hf : ∀ x, (f x).id = x.id) :
    (db.updateUser u.id f).findUserById u.id = some (f u) :=
  find?_update_by_id db.users u f hids hmem hf

theorem refresh_ok (env : Env) (db2 : AuthDb) (t : Jwt RefreshPayload) (now' : Int)
    (user : AuthUser)
    (hsig : t.secret = env.REFRESH_TOKEN_SECRET) (hexp : now' < t.exp)
    (hex : ∃ r ∈ db2.refreshTokens,
      (r.token == t && r.userId == t.payload.userId && r.revokedAt.isNone &&
        decide (now' < r.expiresAt)) = true)
    (huser : db2.findUserById t.payload.userId = some user) :
    refresh env db2 (some t) now' =
      (.ok (jwtSign ⟨user.id, user.role, user.companyId⟩ env.JWT_SECRET
        (now' + 15 * 60 * 1000)), db2) := by
  unfold refresh jwtVerify
  dsimp only
  rw [show (t.secret == env.REFRESH_TOKEN_SECRET) = true from beq_iff_eq.mpr hsig]
  simp only [if_true, hexp, if_pos]
  cases hfound : db2.refreshTokens.find? (fun r =>
      r.token == t && r.userId == t.payload.userId && r.revokedAt.isNone &&
        decide (now' < r.expiresAt)) with
  | none =>
      rw [List.find?_eq_none] at hfound
      obtain ⟨r, hr, hpr⟩ := hex
      exact absurd hpr (by simpa using hfound r hr)
  | some r =>
      have hp := List.find?_some hfound
      simp only [Bool.and_eq_true, beq_iff_eq] at hp
      dsimp only
      rw [hp.1.1.2, huser]

theorem refresh_badToken (env : Env) (db2 : AuthDb) (t : Jwt RefreshPayload) (now4 : Int)
    (h : t.secret ≠ env.REFRESH_TOKEN_SECRET ∨ t.exp ≤ now4) :
    refresh env db2 (some t) now4 = (.invalidToken, db2) := by
  unfold refresh jwtVerify
  dsimp only
  rcases h with h | h
  · simp [beq_eq_false_iff_ne.mpr h]
  · by_cases hsig : (t.secret == env.REFRESH_TOKEN_SECRET) = true
    · simp [hsig, not_lt.mpr h]
    · simp [hsig]

theorem refresh_reject (env : Env) (db2 : AuthDb) (t : Jwt RefreshPayload) (now' : Int)
    (hnone : ∀ r ∈ db2.refreshTokens,
      r.userId = t.payload.userId → r.revokedAt.isNone = false) :
    refresh env db2 (some t) now' = (.invalidToken, db2) := by
  by_cases hsig : t.secret = env.REFRESH_TOKEN_SECRET
  · by_cases hexp : now' < t.exp
    · have hfound : db2.refreshTokens.find? (fun r =>
          r.token == t && r.userId == t.payload.userId && r.revokedAt.isNone &&
            decide (now' < r.expiresAt)) = none := by
        rw [List.find?_eq_none]
        intro r hr hpr
        simp only [Bool.and_eq_true, beq_iff_eq] at hpr
        have h1 := hnone r hr hpr.1.1.2
        rw [hpr.1.2] at h1
        cases h1
      unfold refresh jwtVerify
      dsimp only
      rw [show (t.secret == env.REFRESH_TOKEN_SECRET) = true from beq_iff_eq.mpr hsig]
      simp only [if_true, hexp, if_pos]
      rw [hfound]
    · exact refresh_badToken env db2 t now' (Or.inr (not_lt.mp hexp))
  · exact refresh_badToken env db2 t now' (Or.inl hsig)

theorem authGuard_ok (env : Env) (db2 : AuthDb) (tok : Jwt AccessPayload) (now2 : Int)
    (user : AuthUser)
    (hsig : tok.secret = env.JWT_SECRET) (hexp : now2 < tok.exp)
    (huser : db2.findUserById tok.payload.userId = some user)
    (hact : user.isActive = true) (hver : user.emailVerified = true) :
    authGuard env db2 (some tok) now2 =
      .ok ⟨user.id, user.email, user.name, user.role, user.companyId⟩ := by
  unfold authGuard jwtVerify
  dsimp only
  rw [show (tok.secret == env.JWT_SECRET) = true from beq_iff_eq.mpr hsig]
  simp only [if_true, hexp, if_pos, huser, hact, hver]
  simp [hact, hver]

theorem resendCode_message (db : AuthDb) (e : String) (n : Int) (c : String) :
    (resendCode db e n c).1 = resendMessage := by
  unfold resendCode
  cases hfind : db.findUserByEmail e with
  | none => rfl
  | some u =>
      dsimp only
      by_cases hv : u.emailVerified = false
      · rw [if_pos hv]
      · rw [if_neg hv]

/-! ## Claim C5 -/

/-- C5: for a verified, active account — (a) a wrong-password login below
the threshold increments the failure counter and is rejected with the
generic message; (b) the wrong-password login that brings the counter to 5
sets a lockout of now + 15 minutes; (c) while the lockout is active every
attempt, whatever the password, is rejected as Locked with
`ceil((lockedUntil − now) / 60000)` minutes remaining and no state change;
(d) after expiry a correct-password login succeeds and resets the counter
to 0 (and clears the lock) in the same transaction that persists the
refresh token. -/
theorem C5_lockout (env : Env) (db : AuthDb) (email : String) (u : AuthUser)
    (now : Int) (freshCode : String)
    (hfind : db.findUserByEmail email = some u)
    (hver : u.emailVerified = true) (hact : u.isActive = true) :
    (∀ pw, bcryptCompare pw u.password = false →
      (u.lockedUntil = none ∨ ∃ t, u.lockedUntil = some t ∧ t ≤ now) →
      u.failedAttempts + 1 < 5 →
      login env db email pw now freshCode =
        (.invalidCredentials, db.updateUser u.id (fun x =>
          { x with failedAttempts := u.failedAttempts + 1, lockedUntil := none })))
    ∧ (∀ pw, bcryptCompare pw u.password = false →
      (u.lockedUntil = none ∨ ∃ t, u.lockedUntil = some t ∧ t ≤ now) →
      5 ≤ u.failedAttempts + 1 →
      login env db email pw now freshCode =
        (.tooManyAttempts, db.updateUser u.id (fun x =>
          { x with failedAttempts := u.failedAttempts + 1,
                   lockedUntil := some (now + 15 * 60 * 1000) })))
    ∧ (∀ pw t, u.lockedUntil = some t → now < t →
      login env db email pw now freshCode = (.locked (minutesLeft t now), db))
    ∧ (∀ pw, bcryptCompare pw u.password = true →
      (u.lockedUntil = none ∨ ∃ t, u.lockedUntil = some t ∧ t ≤ now) →
      login env db email pw now freshCode =
        (.success (generateTokens env u.id u.role u.companyId now).1
          (generateTokens env u.id u.role u.companyId now).2,
         loginSuccessState env db u now)) := by
  refine ⟨?_, ?_, ?_, ?_⟩
  · intro pw hpw hlock hlt
    rw [login_unlocked_dispatch env db email u pw now freshCode hfind hlock,
      loginUnlocked_wrongPw env db u pw now freshCode hver hact hpw]
    simp only [if_neg (show ¬(5 ≤ u.failedAttempts + 1) by omega)]
  · intro pw hpw hlock hge
    rw [login_unlocked_dispatch env db email u pw now freshCode hfind hlock,
      loginUnlocked_wrongPw env db u pw now freshCode hver hact hpw]
    simp only [if_pos hge]
  · intro pw t ht hlt
    unfold login
    rw [hfind]
    dsimp only
    rw [ht]
    dsimp only
    rw [if_pos hlt]
  · intro pw hpw hlock
    rw [login_unlocked_dispatch env db email u pw now freshCode hfind hlock]
    exact loginUnlocked_success env db u pw now freshCode hver hact hpw

/-- C5 witness: a first failed attempt on a fresh account, the
threshold-reaching failure on an account with 4 failures, a rejected
correct-password attempt during the lock, and the counter-resetting
correct-password login after expiry. -/
theorem C5_witness :
    login env0 db0 "alice@emergence.gn" "WrongPw" 0 "c1" =
        (.invalidCredentials, db0.updateUser alice.id (fun x =>
          { x with failedAttempts := alice.failedAttempts + 1, lockedUntil := none })) ∧
      login env0 db4 "alice@emergence.gn" "WrongPw" 0 "c1" =
        (.tooManyAttempts, db4.updateUser alice4.id (fun x =>
          { x with failedAttempts := alice4.failedAttempts + 1,
                   lockedUntil := some 900000 })) ∧
      login env0 dbLocked "alice@emergence.gn" "Admin123!" 0 "c1" =
        (.locked 15, dbLocked) ∧
      login env0 dbLocked "alice@emergence.gn" "Admin123!" 1000000 "c1" =
        (.success (generateTokens env0 aliceLocked.id aliceLocked.role
            aliceLocked.companyId 1000000).1
          (generateTokens env0 aliceLocked.id aliceLocked.role
            aliceLocked.companyId 1000000).2,
         loginSuccessState env0 dbLocked aliceLocked 1000000) :=
  ⟨(C5_lockout env0 db0 "alice@emergence.gn" alice 0 "c1" (by decide) rfl rfl).1
      "WrongPw" (by decide) (Or.inl rfl) (by decide),
   (C5_lockout env0 db4 "alice@emergence.gn" alice4 0 "c1" (by decide) rfl rfl).2.1
      "WrongPw" (by decide) (Or.inl rfl) (by decide),
   (C5_lockout env0 dbLocked "alice@emergence.gn" aliceLocked 0 "c1" (by decide)
      rfl rfl).2.2.1 "Admin123!" 900000 rfl (by decide),
   (C5_lockout env0 dbLocked "alice@emergence.gn" aliceLocked 1000000 "c1" (by decide)
      rfl rfl).2.2.2 "Admin123!" (by decide) (Or.inr ⟨900000, rfl, by decide⟩)⟩

/-! ## Claim C6 -/

/-- C6 counterexample: `POST /login` checks `emailVerified` before the
password, so an unverified account supplied with a wrong password still
receives the distinguishable needs-verification response (with a fresh
code) instead of the generic incorrect-credentials message. -/
theorem C6_counterexample :
    bcryptCompare "totally-wrong" bob.password = false ∧
      (login env0 db0 "bob@emergence.gn" "totally-wrong" 0 "654321").1 =
        LoginResult.needsVerification "654321" ∧
      (login env0 db0 "bob@emergence.gn" "totally-wrong" 0 "654321").1 ≠
        LoginResult.invalidCredentials := by
  refine ⟨by decide, by decide, by decide⟩

/-- C6 (amended): for an existing, not-currently-locked, unverified
account, `POST /login` returns the needs-verification response with a
freshly issued code for every supplied password — correct or wrong alike;
the password is not consulted on the unverified path. -/
theorem C6_unverified_login (env : Env) (db : AuthDb) (email : String) (u : AuthUser)
    (now : Int) (code : String)
    (hfind : db.findUserByEmail email = some u)
    (hlock : u.lockedUntil = none ∨ ∃ t, u.lockedUntil = some t ∧ t ≤ now)
    (hunver : u.emailVerified = false) :
    ∀ pw, login env db email pw now code =
      (.needsVerification code, db.updateUser u.id (fun x =>
        { x with verificationCode := some code,
                 codeExpiresAt := some (now + 15 * 60 * 1000) })) := by
  intro pw
  rw [login_unlocked_dispatch env db email u pw now code hfind hlock]
  unfold loginUnlocked
  simp [hunver]

/-- C6 witness: the correct and a wrong password produce the same
needs-verification result on Bob's unverified account. -/
theorem C6_witness :
    login env0 db0 "bob@emergence.gn" "Secret99!" 0 "777777" =
        (.needsVerification "777777", db0.updateUser bob.id (fun x =>
          { x with verificationCode := some "777777",
                   codeExpiresAt := some (0 + 15 * 60 * 1000) })) ∧
      login env0 db0 "bob@emergence.gn" "wrong-pass" 0 "777777" =
        (.needsVerification "777777", db0.updateUser bob.id (fun x =>
          { x with verificationCode := some "777777",
                   codeExpiresAt := some (0 + 15 * 60 * 1000) })) :=
  ⟨C6_unverified_login env0 db0 "bob@emergence.gn" bob 0 "777777" (by decide)
      (Or.inl rfl) rfl "Secret99!",
   C6_unverified_login env0 db0 "bob@emergence.gn" bob 0 "777777" (by decide)
      (Or.inl rfl) rfl "wrong-pass"⟩

/-! ## Claim C7 -/

/-- C7: after a successful login — (1) the login persists the refresh
token and resets the counters; (2) a refresh call with that token before
its 7-day expiry issues a new 15-minute access token that the Authorization
Guard accepts, without touching the stored rows (no rotation); (3) logout
stamps `revokedAt` on every unrevoked refresh token of the user; (4) after
logout, every refresh call with any refresh token of that user fails with
the generic 401; (5) a badly signed or expired refresh token always fails
with the generic 401. -/
theorem C7_refresh_roundtrip (env : Env) (db : AuthDb) (email pw : String)
    (u : AuthUser) (now : Int) (code : String)
    (hfind : db.findUserByEmail email = some u)
    (hver : u.emailVerified = true) (hact : u.isActive = true)
    (hlock : u.lockedUntil = none ∨ ∃ t, u.lockedUntil = some t ∧ t ≤ now)
    (hpw : bcryptCompare pw u.password = true)
    (hids : (db.users.map AuthUser.id).Nodup) :
    login env db email pw now code =
        (.success (generateTokens env u.id u.role u.companyId now).1
          (generateTokens env u.id u.role u.companyId now).2,
         loginSuccessState env db u now) ∧
    (∀ now', now' < now + 7 * 24 * 60 * 60 * 1000 →
        refresh env (loginSuccessState env db u now)
            (some (generateTokens env u.id u.role u.companyId now).2) now' =
          (.ok (jwtSign (⟨u.id, u.role, u.companyId⟩ : AccessPayload) env.JWT_SECRET
            (now' + 15 * 60 * 1000)), loginSuccessState env db u now) ∧
        (∀ now2, now2 < now' + 15 * 60 * 1000 →
          authGuard env (loginSuccessState env db u now)
              (some (jwtSign (⟨u.id, u.role, u.companyId⟩ : AccessPayload) env.JWT_SECRET
                (now' + 15 * 60 * 1000))) now2 =
            .ok ⟨u.id, u.email, u.name, u.role, u.companyId⟩)) ∧
    (∀ tRevoke : Int, ∀ r ∈ (loginSuccessState env db u now).refreshTokens,
        r.userId = u.id → r.revokedAt = none →
        { r with revokedAt := some tRevoke } ∈
          (logout (loginSuccessState env db u now) u.id tRevoke).refreshTokens) ∧
    (∀ (tRevoke now3 : Int) (t : Jwt RefreshPayload), t.payload.userId = u.id →
        refresh env (logout (loginSuccessState env db u now) u.id tRevoke) (some t) now3 =
          (.invalidToken, logout (loginSuccessState env db u now) u.id tRevoke)) ∧
    (∀ (t : Jwt RefreshPayload) (now4 : Int),
        t.secret ≠ env.REFRESH_TOKEN_SECRET ∨ t.exp ≤ now4 →
        refresh env (loginSuccessState env db u now) (some t) now4 =
          (.invalidToken, loginSuccessState env db u now)) := by
  have hmem : u ∈ db.users := List.mem_of_find?_eq_some hfind
  have hru : (loginSuccessState env db u now).findUserById u.id =
      some { u with failedAttempts := 0, lockedUntil := none, lastLogin := some now } :=
    findUserById_updateUser
      { db with refreshTokens := db.refreshTokens ++
          [(⟨(generateTokens env u.id u.role u.companyId now).2, u.id,
            now + 7 * 24 * 60 * 60 * 1000, none⟩ : RefreshTokenRow)] }
      u (fun x => { x with failedAttempts := 0, lockedUntil := none, lastLogin := some now })
      hids hmem (fun x => rfl)
  refine ⟨?_, ?_, ?_, ?_, ?_⟩
  · rw [login_unlocked_dispatch env db email u pw now code hfind hlock]
    exact loginUnlocked_success env db u pw now code hver hact hpw
  · intro now' h7
    have hrefresh := refresh_ok env (loginSuccessState env db u now)
      (generateTokens env u.id u.role u.companyId now).2 now'
      { u with failedAttempts := 0, lockedUntil := none, lastLogin := some now }
      rfl h7
      ⟨⟨(generateTokens env u.id u.role u.companyId now).2, u.id,
        now + 7 * 24 * 60 * 60 * 1000, none⟩,
        List.mem_append_right _ (List.mem_singleton.mpr rfl), by
          simp only [generateTokens, jwtSign, Bool.and_eq_true, beq_iff_eq,
            decide_eq_true_eq, beq_self_eq_true, Option.isNone_none, and_true, true_and]
          omega⟩
      hru
    refine ⟨hrefresh, ?_⟩
    intro now2 h15
    exact authGuard_ok env (loginSuccessState env db u now)
      (jwtSign (⟨u.id, u.role, u.companyId⟩ : AccessPayload) env.JWT_SECRET
        (now' + 15 * 60 * 1000)) now2
      { u with failedAttempts := 0, lockedUntil := none, lastLogin := some now }
      rfl h15 hru hact hver
  · intro tRevoke r hr huid hrev
    have hcond : (r.userId == u.id && r.revokedAt.isNone) = true := by
      simp [huid, hrev]
    have hmm := List.mem_map_of_mem (fun r : RefreshTokenRow =>
      if r.userId == u.id && r.revokedAt.isNone
      then { r with revokedAt := some tRevoke } else r) hr
    dsimp only at hmm
    rw [if_pos hcond] at hmm
    exact hmm
  · intro tRevoke now3 t huid
    refine refresh_reject env _ t now3 ?_
    intro r hr hrid
    obtain ⟨r0, hr0, rfl⟩ := List.mem_map.mp hr
    by_cases hc : (r0.userId == u.id && r0.revokedAt.isNone) = true
    · rw [if_pos hc] at hrid ⊢
      rfl
    · rw [if_neg hc] at hrid ⊢
      rw [huid] at hrid
      have hbeq : (r0.userId == u.id) = true := beq_iff_eq.mpr hrid
      cases hno : r0.revokedAt.isNone with
      | false => rfl
      | true => exact absurd (by simp [hbeq, hno]) hc
  · intro t now4 h
    exact refresh_badToken env (loginSuccessState env db u now) t now4 h

/-- C7 witness: login at t = 0, refresh at t = 1000 accepted and the new
access token accepted by the guard at t = 2000, logout at t = 5000, the old
refresh token rejected at t = 6000, and a badly signed token rejected. -/
theorem C7_witness :
    login env0 db0 "alice@emergence.gn" "Admin123!" 0 "c" =
        (.success (generateTokens env0 alice.id alice.role alice.companyId 0).1 rt0,
         db0') ∧
      refresh env0 db0' (some rt0) 1000 = (.ok at0, db0') ∧
      authGuard env0 db0' (some at0) 2000 =
        .ok ⟨alice.id, alice.email, alice.name, alice.role, alice.companyId⟩ ∧
      refresh env0 (logout db0' alice.id 5000) (some rt0) 6000 =
        (.invalidToken, logout db0' alice.id 5000) ∧
      refresh env0 db0' (some (jwtSign (⟨1⟩ : RefreshPayload) "bad-secret" 999999)) 10 =
        (.invalidToken, db0') :=
  ⟨(C7_refresh_roundtrip env0 db0 "alice@emergence.gn" "Admin123!" alice 0 "c"
      (by decide) rfl rfl (Or.inl rfl) (by decide) (by decide)).1,
   ((C7_refresh_roundtrip env0 db0 "alice@emergence.gn" "Admin123!" alice 0 "c"
      (by decide) rfl rfl (Or.inl rfl) (by decide) (by decide)).2.1 1000 (by decide)).1,
   ((C7_refresh_roundtrip env0 db0 "alice@emergence.gn" "Admin123!" alice 0 "c"
      (by decide) rfl rfl (Or.inl rfl) (by decide) (by decide)).2.1 1000
        (by decide)).2 2000 (by decide),
   (C7_refresh_roundtrip env0 db0 "alice@emergence.gn" "Admin123!" alice 0 "c"
      (by decide) rfl rfl (Or.inl rfl) (by decide) (by decide)).2.2.2.1 5000 6000 rt0 rfl,
   (C7_refresh_roundtrip env0 db0 "alice@emergence.gn" "Admin123!" alice 0 "c"
      (by decide) rfl rfl (Or.inl rfl) (by decide) (by decide)).2.2.2.2
      (jwtSign (⟨1⟩ : RefreshPayload) "bad-secret" 999999) 10 (Or.inl (by decide))⟩

/-! ## Claim C10 -/

/-- C10: `POST /resend-code` answers with the same success message whether
or not the email belongs to an account; internally a new code with a fresh
15-minute expiry is stored only for an existing, unverified account, and
the database is unchanged otherwise. -/
theorem C10_resend_anti_enumeration (db : AuthDb) (e1 e2 : String) (n1 n2 : Int)
    (c1 c2 : String) :
    (resendCode db e1 n1 c1).1 = (resendCode db e2 n2 c2).1 ∧
    (∀ u, db.findUserByEmail e1 = some u → u.emailVerified = false →
      (resendCode db e1 n1 c1).2 = db.updateUser u.id (fun x =>
        { x with verificationCode := some c1,
                 codeExpiresAt := some (n1 + 15 * 60 * 1000) })) ∧
    (∀ u, db.findUserByEmail e1 = some u → u.emailVerified = true →
      (resendCode db e1 n1 c1).2 = db) ∧
    (db.findUserByEmail e1 = none → (resendCode db e1 n1 c1).2 = db) := by
  refine ⟨(resendCode_message db e1 n1 c1).trans (resendCode_message db e2 n2 c2).symm,
    ?_, ?_, ?_⟩
  · intro u hu hun
    unfold resendCode
    rw [hu]
    dsimp only
    rw [if_pos hun]
  · intro u hu hv
    unfold resendCode
    rw [hu]
    dsimp only
    rw [if_neg (by simp [hv])]
  · intro hnone
    unfold resendCode
    rw [hnone]

/-- C10 witness: the answers for Bob's (existing, unverified) email and a
nonexistent email coincide; Bob's row gets the fresh code while the
nonexistent email changes nothing. -/
theorem C10_witness :
    (resendCode db0 "bob@emergence.gn" 0 "999999").1 =
        (resendCode db0 "ghost@nowhere.gn" 0 "888888").1 ∧
      (resendCode db0 "bob@emergence.gn" 0 "999999").2 =
        db0.updateUser bob.id (fun x =>
          { x with verificationCode := some "999999",
                   codeExpiresAt := some (0 + 15 * 60 * 1000) }) ∧
      (resendCode db0 "ghost@nowhere.gn" 0 "888888").2 = db0 :=
  ⟨(C10_resend_anti_enumeration db0 "bob@emergence.gn" "ghost@nowhere.gn" 0 0
      "999999" "888888").1,
   (C10_resend_anti_enumeration db0 "bob@emergence.gn" "ghost@nowhere.gn" 0 0
      "999999" "888888").2.1 bob (by decide) rfl,
   (C10_resend_anti_enumeration db0 "ghost@nowhere.gn" "bob@emergence.gn" 0 0
      "888888" "999999").2.2.2 (by decide)⟩

end TransG
